import Mathlib

/-! The image-creation step of the Orka builder.

A shallow embedding of `builder/orka/step_create_image.go`: the step instance
with its two failure flags, the shared state bag, and the two methods `Run`
and `Cleanup`.

Every observable action of the step (a message to the ui, a write to the state
bag, a call of the HTTP client) is appended to an effect trace, so that "calls
the client once" or "writes nothing" are statements about the trace.  The HTTP
requests a call of the client sends (more than one when it follows a redirect)
are given by the surroundings.  A Go panic (a failed type assertion on a state-bag entry, the
dereference of the nil request `http.NewRequest` returns with an error) is the
result `none`.

What lies outside the file is a parameter, collected in `Env`: the two message
constants, the URL parser behind `http.NewRequest`, the call `http.Client.Do`
with the requests it sends, and the JSON encoder and decoder.
-/

namespace Orka

/-! ## Data model -/

/-- Go byte slices. -/
abbrev Bytes := List UInt8

/-- A non-nil Go `error` value, observed through its `Error()` text. -/
structure GoError where
  text : String
deriving DecidableEq, Repr

/-- The two step actions of `multistep` the step returns. -/
inductive StepAction where
  | ActionContinue
  | ActionHalt
deriving DecidableEq, Repr

/-- Modelled from the spec: the type `Config` is declared outside
`step_create_image.go`; these are the four fields the step reads (skip-creation
flag, image name, precopy flag, endpoint base URL). -/
structure Config where
  NoCreateImage : Bool
  ImageName : String
  ImagePrecopy : Bool
  OrkaEndpoint : String
deriving DecidableEq, Repr

/-- The step instance: `type stepCreateImage struct`. -/
structure stepCreateImage where
  failedCommit : Bool
  failedSave : Bool
deriving DecidableEq, Repr

/-- Modelled from the spec: request record of the commit endpoint (declared
outside the file), built positionally as `ImageCommitRequest{vmid}`. -/
structure ImageCommitRequest where
  VMID : String
deriving DecidableEq, Repr

/-- Modelled from the spec: request record of the save endpoint (declared
outside the file), built positionally as `ImageSaveRequest{vmid, config.ImageName}`. -/
structure ImageSaveRequest where
  VMID : String
  ImageName : String
deriving DecidableEq, Repr

/-- Modelled from the spec: response record of the commit endpoint (declared
outside the file); the step reads its `Message` field. -/
structure ImageCommitResponse where
  Message : String
deriving DecidableEq, Repr

/-- Modelled from the spec: response record of the save endpoint (declared
outside the file); the step reads its `Message` field. -/
structure ImageSaveResponse where
  Message : String
deriving DecidableEq, Repr

/-- The zero value of `var imageCommitResponseData ImageCommitResponse`. -/
def ImageCommitResponse.zero : ImageCommitResponse := ⟨""⟩

/-- The zero value of `var imageSaveResponseData ImageSaveResponse`. -/
def ImageSaveResponse.zero : ImageSaveResponse := ⟨""⟩

/-- The values the state bag holds (`interface{}` in Go), by dynamic type. -/
inductive Value where
  /-- the nil interface value -/
  | nil
  /-- a `*Config` -/
  | config (c : Config)
  /-- a `packer.Ui` -/
  | ui
  /-- a `string` -/
  | str (s : String)
  /-- a non-nil `error` -/
  | err (e : GoError)
  /-- a value of any other type -/
  | other
deriving DecidableEq, Repr

/-- A Go `error` variable (nil or not) converted to `interface{}`. -/
def Value.ofError : Option GoError → Value
  | none => Value.nil
  | some e => Value.err e

/-- The type assertion `.(*Config)`; `none` is the panic. -/
def Value.asConfig : Value → Option Config
  | Value.config c => some c
  | _ => none

/-- The type assertion `.(packer.Ui)`; `none` is the panic. -/
def Value.asUi : Value → Option Unit
  | Value.ui => some ()
  | _ => none

/-- The type assertion `.(string)`; `none` is the panic. -/
def Value.asString : Value → Option String
  | Value.str s => some s
  | _ => none

/-- The state bag (`multistep.BasicStateBag`, a `map[string]interface{}`), as
an association list with at most one entry per key. -/
abbrev StateBag := List (String × Value)

/-- Go `GetOk`: the value (nil when absent) and whether the key is present. -/
def StateBag.GetOk (b : StateBag) (k : String) : Value × Bool :=
  match b.lookup k with
  | some v => (v, true)
  | none => (Value.nil, false)

/-- Go `Get`: the first component of `GetOk`. -/
def StateBag.Get (b : StateBag) (k : String) : Value :=
  (StateBag.GetOk b k).1

/-- Go `Put`: `data[k] = v`. -/
def StateBag.Put (b : StateBag) (k : String) (v : Value) : StateBag :=
  (k, v) :: b.filter (fun p => p.1 != k)

/-- Go `multistep.StateCancelled`. -/
def StateCancelled : String := "cancelled"

/-- Go `multistep.StateHalted`. -/
def StateHalted : String := "halted"

/-- An `http.Request` as the step builds it. -/
structure Request where
  Method : String
  URL : String
  Header : List (String × String)
  Body : Bytes
deriving DecidableEq, Repr

/-- Go `Header.Set`: replace the entry of the key. -/
def Request.setHeader (r : Request) (k v : String) : Request :=
  { r with Header := r.Header.filter (fun p => p.1 != k) ++ [(k, v)] }

/-- An `http.Response` as the step reads it: status code, status line, and the
bytes `ioutil.ReadAll` obtains from the body. -/
structure Response where
  StatusCode : Int
  Status : String
  Body : Bytes
deriving DecidableEq, Repr

/-- The `http.Client` the step creates; the timeout is in nanoseconds. -/
structure Client where
  Timeout : Nat
deriving DecidableEq, Repr

/-- Go `time.Minute`, in nanoseconds. -/
def Minute : Nat := 60 * 1000000000

/-- Go `http.MethodPost`. -/
def MethodPost : String := "POST"

/-- One observable action of the step. -/
inductive Effect where
  /-- Go `ui.Say(msg)` -/
  | Say (msg : String)
  /-- Go `ui.Error(msg)` -/
  | Error (msg : String)
  /-- Go `state.Put(key, v)` -/
  | Put (key : String) (v : Value)
  /-- Go `client.Do(req)` -/
  | Do (client : Client) (req : Request)
deriving DecidableEq, Repr

/-- What the step runs in: its own flags, the shared state bag, and the trace
of the actions performed so far. -/
structure World where
  step : stepCreateImage
  state : StateBag
  trace : List Effect
deriving DecidableEq, Repr

/-- The surroundings of the step that the file does not define. -/
structure Env where
  /-- constant declared elsewhere in the package -/
  OrkaAPIRequestErrorMessage : String
  /-- constant declared elsewhere in the package -/
  OrkaAPIResponseErrorMessage : String
  /-- whether `url.Parse`, called by `http.NewRequest`, accepts the URL -/
  urlParse : String → Bool
  /-- the result of the call `client.Do(req)`: a transport error, or the
  response the client returns (after a redirect it followed, the last one) -/
  Do : Client → Request → Except GoError Response
  /-- the HTTP requests the client sends during the call `client.Do(req)`, in
  order: the request itself and, with the default redirect policy of the client
  the step creates, the ones it sends on its own to follow a redirect; none when
  the call fails before anything is sent -/
  wire : Client → Request → List Request
  /-- Go `json.Marshal` of a commit request (the error is discarded) -/
  marshalCommit : ImageCommitRequest → Bytes
  /-- Go `json.Marshal` of a save request (the error is discarded) -/
  marshalSave : ImageSaveRequest → Bytes
  /-- Go `json.Unmarshal(data, &v)`: the record it leaves and the error it returns -/
  unmarshalCommit : Bytes → ImageCommitResponse → ImageCommitResponse × Option GoError
  /-- Go `json.Unmarshal(data, &v)`: the record it leaves and the error it returns -/
  unmarshalSave : Bytes → ImageSaveResponse → ImageSaveResponse × Option GoError

/-! ## Effects -/

/-- Go `ui.Say`. -/
def World.say (w : World) (msg : String) : World :=
  { w with trace := w.trace ++ [Effect.Say msg] }

/-- Go `ui.Error`. -/
def World.error (w : World) (msg : String) : World :=
  { w with trace := w.trace ++ [Effect.Error msg] }

/-- Go `state.Put`. -/
def World.put (w : World) (k : String) (v : Value) : World :=
  { w with state := StateBag.Put w.state k v, trace := w.trace ++ [Effect.Put k v] }

/-- Handing a request to `client.Do`. -/
def World.issue (w : World) (c : Client) (req : Request) : World :=
  { w with trace := w.trace ++ [Effect.Do c req] }

/-- Go `s.failedCommit = true`. -/
def World.setFailedCommit (w : World) : World :=
  { w with step := { failedCommit := true, failedSave := w.step.failedSave } }

/-- Go `s.failedSave = true`. -/
def World.setFailedSave (w : World) : World :=
  { w with step := { w.step with failedSave := true } }

/-- Go `http.NewRequest`: the request, or `none` when it returns a nil request
with an error (the URL does not parse). -/
def NewRequest (env : Env) (method url : String) (body : Bytes) : Option Request :=
  if env.urlParse url then some { Method := method, URL := url, Header := [], Body := body }
  else none

/-- The requests handed to the client in a trace, in order: one for each call
of `client.Do`.  What the client sends during a call is `sent`. -/
def issued : List Effect → List Request
  | [] => []
  | Effect.Do _ req :: t => req :: issued t
  | _ :: t => issued t

/-- The writes to the state bag in a trace, in order. -/
def puts : List Effect → List (String × Value)
  | [] => []
  | Effect.Put k v :: t => (k, v) :: puts t
  | _ :: t => puts t

/-! ## The step -/

/-- The precopy branch of `Run` (lines 42 to 79), from the first message to the
result. -/
def runCommit (env : Env) (config : Config) (vmid token : String) (client : Client)
    (w : World) : Option (StepAction × World) :=
  let w := w.say "Committing existing image since pre-copy is being used"
  let w := w.say "Please wait as this can take a little while..."
  let imageCommitRequestData : ImageCommitRequest := ⟨vmid⟩
  let imageCommitRequestDataJSON := env.marshalCommit imageCommitRequestData
  match NewRequest env MethodPost (config.OrkaEndpoint ++ "/" ++ "resources/image/commit")
      imageCommitRequestDataJSON with
  | none => none
  | some imageCommitRequest =>
    let imageCommitRequest := imageCommitRequest.setHeader "Content-Type" "application/json"
    let imageCommitRequest := imageCommitRequest.setHeader "Authorization" ("Bearer " ++ token)
    let w := w.issue client imageCommitRequest
    match env.Do client imageCommitRequest with
    | Except.error err =>
      let w := w.setFailedCommit
      let e := env.OrkaAPIRequestErrorMessage ++ " [" ++ err.text ++ "]"
      let w := w.error e
      let w := w.put "error" (Value.ofError (some err))
      some (StepAction.ActionHalt, w)
    | Except.ok imageCommitResponse =>
      let err : Option GoError := none
      let imageCommitResponseData :=
        (env.unmarshalCommit imageCommitResponse.Body ImageCommitResponse.zero).1
      if imageCommitResponse.StatusCode ≠ 200 then
        let w := w.setFailedCommit
        let e := "Error committing image [" ++ imageCommitResponse.Status ++ "]"
        let w := w.error e
        let w := w.put "error" (Value.ofError err)
        some (StepAction.ActionHalt, w)
      else
        let w := w.say ("Image comitted [" ++ imageCommitResponse.Status ++ "] [" ++
          imageCommitResponseData.Message ++ "]")
        some (StepAction.ActionContinue, w)

/-- The save branch of `Run` (lines 81 to 119), from the first message to the
result. -/
def runSave (env : Env) (config : Config) (vmid token : String) (client : Client)
    (w : World) : Option (StepAction × World) :=
  let w := w.say ("Saving new image [" ++ config.ImageName ++ "]")
  let w := w.say "Please wait as this can take a little while..."
  let imageSaveRequestData : ImageSaveRequest := ⟨vmid, config.ImageName⟩
  let imageSaveRequestDataJSON := env.marshalSave imageSaveRequestData
  match NewRequest env MethodPost (config.OrkaEndpoint ++ "/" ++ "resources/image/save")
      imageSaveRequestDataJSON with
  | none => none
  | some imageSaveRequest =>
    let imageSaveRequest := imageSaveRequest.setHeader "Content-Type" "application/json"
    let imageSaveRequest := imageSaveRequest.setHeader "Authorization" ("Bearer " ++ token)
    let w := w.issue client imageSaveRequest
    match env.Do client imageSaveRequest with
    | Except.error err =>
      let w := w.setFailedSave
      let e := env.OrkaAPIRequestErrorMessage ++ " [" ++ err.text ++ "]"
      let w := w.error e
      let w := w.put "error" (Value.ofError (some err))
      some (StepAction.ActionHalt, w)
    | Except.ok imageSaveResponse =>
      let err : Option GoError := none
      let imageSaveResponseData :=
        (env.unmarshalSave imageSaveResponse.Body ImageSaveResponse.zero).1
      if imageSaveResponse.StatusCode ≠ 200 then
        let w := w.setFailedSave
        let e := env.OrkaAPIResponseErrorMessage ++ " [" ++ imageSaveResponse.Status ++ "]"
        let w := w.error e
        let w := w.put "error" (Value.ofError err)
        some (StepAction.ActionHalt, w)
      else
        let w := w.say ("Image saved [" ++ imageSaveResponse.Status ++ "] [" ++
          imageSaveResponseData.Message ++ "]")
        some (StepAction.ActionContinue, w)

/-- Go `func (s *stepCreateImage) Run(ctx, state) multistep.StepAction`: the action
returned and the world it leaves, or `none` when it panics. -/
def Run (env : Env) (w : World) : Option (StepAction × World) :=
  match (StateBag.Get w.state "config").asConfig, (StateBag.Get w.state "ui").asUi,
      (StateBag.Get w.state "vmid").asString, (StateBag.Get w.state "token").asString with
  | some config, some _, some vmid, some token =>
    if config.NoCreateImage then
      some (StepAction.ActionContinue,
        w.say "Skipping image creation because of 'no_create_image' being set")
    else
      let w := w.say ("Image creation is using VM ID [" ++ vmid ++ "]")
      let w := w.say ("Image name is [" ++ config.ImageName ++ "]")
      let client : Client := { Timeout := Minute * 30 }
      if config.ImagePrecopy then runCommit env config vmid token client w
      else runSave env config vmid token client w
  | _, _, _, _ => none

/-- Go `func (s *stepCreateImage) Cleanup(state)`: the world it leaves, or `none`
when it panics. -/
def Cleanup (w : World) : Option World :=
  match (StateBag.Get w.state "ui").asUi, (StateBag.Get w.state "vmid").asString with
  | some _, some vmid =>
    let cancelled := (StateBag.GetOk w.state StateCancelled).2
    let halted := (StateBag.GetOk w.state StateHalted).2
    if w.step.failedCommit || w.step.failedSave then
      some (w.say
        "Commit or save failed - please check Orka to see if any artifacts were left behind")
    else if !cancelled && !halted then some w
    else if vmid == "" then some w
    else some w
  | _, _ => none

/-! ## The request each branch builds, and sample surroundings -/

/-- The request the precopy branch hands to the client: a POST to the commit
endpoint carrying the encoded `ImageCommitRequest` and the two headers. -/
def commitRequest (env : Env) (config : Config) (vmid token : String) : Request :=
  { Method := MethodPost
    URL := config.OrkaEndpoint ++ "/" ++ "resources/image/commit"
    Header := [("Content-Type", "application/json"), ("Authorization", "Bearer " ++ token)]
    Body := env.marshalCommit ⟨vmid⟩ }

/-- The request the save branch hands to the client: a POST to the save
endpoint carrying the encoded `ImageSaveRequest` and the two headers. -/
def saveRequest (env : Env) (config : Config) (vmid token : String) : Request :=
  { Method := MethodPost
    URL := config.OrkaEndpoint ++ "/" ++ "resources/image/save"
    Header := [("Content-Type", "application/json"), ("Authorization", "Bearer " ++ token)]
    Body := env.marshalSave ⟨vmid, config.ImageName⟩ }

/-- The request of the branch the configuration selects. -/
def stepRequest (env : Env) (config : Config) (vmid token : String) : Request :=
  if config.ImagePrecopy then commitRequest env config vmid token
  else saveRequest env config vmid token

/-- The client `Run` creates: a timeout of thirty minutes. -/
def stepClient : Client := { Timeout := Minute * 30 }

/-- The four progress messages that precede the request of a branch. -/
def progress (config : Config) (vmid : String) : List Effect :=
  [Effect.Say ("Image creation is using VM ID [" ++ vmid ++ "]"),
   Effect.Say ("Image name is [" ++ config.ImageName ++ "]"),
   Effect.Say (if config.ImagePrecopy then "Committing existing image since pre-copy is being used"
     else "Saving new image [" ++ config.ImageName ++ "]"),
   Effect.Say "Please wait as this can take a little while..."]

/-- A sample configuration with the given skip and precopy flags. -/
def sampleConfig (skip precopy : Bool) : Config :=
  { NoCreateImage := skip, ImageName := "golden", ImagePrecopy := precopy,
    OrkaEndpoint := "http://10.221.188.100" }

/-- A sample state bag holding the four entries `Run` reads. -/
def sampleState (c : Config) : StateBag :=
  [("config", Value.config c), ("ui", Value.ui), ("vmid", Value.str "vm-1"),
   ("token", Value.str "secret")]

/-- A sample world: a fresh step instance, the sample state, an empty trace. -/
def sampleWorld (c : Config) : World :=
  { step := { failedCommit := false, failedSave := false }, state := sampleState c, trace := [] }

/-- A decoder for the samples: the body `ok` decodes to that message, any other
body leaves the record as it is with an error. -/
def sampleDecode (body : Bytes) (old : String) : String × Option GoError :=
  if body = [111, 107] then ("ok", none) else (old, some ⟨"invalid character"⟩)

/-- Sample surroundings whose client answers every call with `result`, having
sent the request it was handed and nothing else. -/
def sampleEnv (result : Except GoError Response) : Env :=
  { OrkaAPIRequestErrorMessage := "API request failed"
    OrkaAPIResponseErrorMessage := "API response error"
    urlParse := fun _ => true
    Do := fun _ _ => result
    wire := fun _ req => [req]
    marshalCommit := fun _ => []
    marshalSave := fun _ => []
    unmarshalCommit := fun b r => (⟨(sampleDecode b r.Message).1⟩, (sampleDecode b r.Message).2)
    unmarshalSave := fun b r => (⟨(sampleDecode b r.Message).1⟩, (sampleDecode b r.Message).2) }

/-- A sample response with status 200 whose body is the text `ok`. -/
def sampleOk : Response := { StatusCode := 200, Status := "200 OK", Body := [111, 107] }

/-- A sample response with status 200 whose body the sample decoder rejects. -/
def sampleGarbled : Response := { StatusCode := 200, Status := "200 OK", Body := [123] }

/-- A sample response with status 500. -/
def sampleFailure : Response :=
  { StatusCode := 500, Status := "500 Internal Server Error", Body := [] }

/-- A sample transport error. -/
def sampleRefused : GoError := { text := "connection refused" }

/-- The messages sent through `ui.Error` in a trace, in order. -/
def errors : List Effect → List String
  | [] => []
  | Effect.Error m :: t => m :: errors t
  | _ :: t => errors t

/-- A sample state bag of a cancelled pipeline: a ui, a vmid and the
cancellation marker. -/
def sampleCancelled : StateBag :=
  [("ui", Value.ui), ("vmid", Value.str "vm-1"), (StateCancelled, Value.other)]

/-- The HTTP requests sent in a trace, in order: for each call of `client.Do`,
the requests the client sends during it. -/
def sent (env : Env) : List Effect → List Request
  | [] => []
  | Effect.Do c req :: t => env.wire c req ++ sent env t
  | _ :: t => sent env t

/-- Sample surroundings with a redirecting server: the POST to the save endpoint
is answered `307 Temporary Redirect` with the location `/resources/image/commit`;
the client follows it by sending the same POST to the commit endpoint, which
answers 200, and `client.Do` returns that answer. -/
def sampleRedirect : Env :=
  { sampleEnv (Except.ok sampleOk) with
    wire := fun _ req =>
      [req, { req with URL := "http://10.221.188.100/resources/image/commit" }] }

/-- A sample configuration of the save branch whose endpoint has a blank in the
host name. -/
def sampleBadConfig : Config :=
  { NoCreateImage := false, ImageName := "golden", ImagePrecopy := false,
    OrkaEndpoint := "http://bad host" }

/-- Sample surroundings whose URL parser rejects a URL with a blank, as
`url.Parse` rejects the one built from `sampleBadConfig` (invalid character in
host name). -/
def sampleStrict : Env :=
  { sampleEnv (Except.ok sampleOk) with urlParse := fun u => !(u.data.contains ' ') }

/-! ## Auxiliary facts -/

/-- The HTTP requests of a concatenated trace. -/
theorem sent_append (env : Env) (l₁ l₂ : List Effect) :
    sent env (l₁ ++ l₂) = sent env l₁ ++ sent env l₂ := by
  induction l₁ with
  | nil => rfl
  | cons e t ih => cases e <;> simp [sent, ih]


/-- The requests of a concatenated trace. -/
theorem issued_append (l₁ l₂ : List Effect) : issued (l₁ ++ l₂) = issued l₁ ++ issued l₂ := by
  induction l₁ with
  | nil => rfl
  | cons e t ih => cases e <;> simp [issued, ih]

/-- The writes of a concatenated trace. -/
theorem puts_append (l₁ l₂ : List Effect) : puts (l₁ ++ l₂) = puts l₁ ++ puts l₂ := by
  induction l₁ with
  | nil => rfl
  | cons e t ih => cases e <;> simp [puts, ih]

/-- Reading a key right after writing it gives the value written. -/
theorem get_put (b : StateBag) (k : String) (v : Value) :
    StateBag.Get (StateBag.Put b k v) k = v := by
  simp [StateBag.Get, StateBag.GetOk, StateBag.Put, List.lookup]

/-- Go `Run` on a state bag that holds the four entries it reads. -/
theorem run_of_state (env : Env) (w : World) (config : Config) (vmid token : String)
    (hc : StateBag.Get w.state "config" = Value.config config)
    (hu : StateBag.Get w.state "ui" = Value.ui)
    (hv : StateBag.Get w.state "vmid" = Value.str vmid)
    (ht : StateBag.Get w.state "token" = Value.str token) :
    Run env w =
      if config.NoCreateImage then
        some (StepAction.ActionContinue,
          w.say "Skipping image creation because of 'no_create_image' being set")
      else if config.ImagePrecopy then
        runCommit env config vmid token stepClient
          ((w.say ("Image creation is using VM ID [" ++ vmid ++ "]")).say
            ("Image name is [" ++ config.ImageName ++ "]"))
      else
        runSave env config vmid token stepClient
          ((w.say ("Image creation is using VM ID [" ++ vmid ++ "]")).say
            ("Image name is [" ++ config.ImageName ++ "]")) := by
  simp [Run, hc, hu, hv, ht, Value.asConfig, Value.asUi, Value.asString, stepClient]

/-- The precopy branch once `http.NewRequest` accepts the URL: the request is
handed to the client and the result follows the three cases of the source. -/
theorem runCommit_of_url (env : Env) (config : Config) (vmid token : String) (client : Client)
    (w : World)
    (hurl : env.urlParse (config.OrkaEndpoint ++ "/" ++ "resources/image/commit") = true) :
    runCommit env config vmid token client w =
      match env.Do client (commitRequest env config vmid token) with
      | Except.error err =>
        some (StepAction.ActionHalt,
          { step := { failedCommit := true, failedSave := w.step.failedSave }
            state := StateBag.Put w.state "error" (Value.err err)
            trace := w.trace ++
              [Effect.Say "Committing existing image since pre-copy is being used",
               Effect.Say "Please wait as this can take a little while...",
               Effect.Do client (commitRequest env config vmid token),
               Effect.Error (env.OrkaAPIRequestErrorMessage ++ " [" ++ err.text ++ "]"),
               Effect.Put "error" (Value.err err)] })
      | Except.ok resp =>
        if resp.StatusCode ≠ 200 then
          some (StepAction.ActionHalt,
            { step := { failedCommit := true, failedSave := w.step.failedSave }
              state := StateBag.Put w.state "error" Value.nil
              trace := w.trace ++
                [Effect.Say "Committing existing image since pre-copy is being used",
                 Effect.Say "Please wait as this can take a little while...",
                 Effect.Do client (commitRequest env config vmid token),
                 Effect.Error ("Error committing image [" ++ resp.Status ++ "]"),
                 Effect.Put "error" Value.nil] })
        else
          some (StepAction.ActionContinue,
            { step := w.step
              state := w.state
              trace := w.trace ++
                [Effect.Say "Committing existing image since pre-copy is being used",
                 Effect.Say "Please wait as this can take a little while...",
                 Effect.Do client (commitRequest env config vmid token),
                 Effect.Say ("Image comitted [" ++ resp.Status ++ "] [" ++
                   (env.unmarshalCommit resp.Body ImageCommitResponse.zero).1.Message ++ "]")] }) := by
  have hreq : ((Request.mk MethodPost (config.OrkaEndpoint ++ "/" ++ "resources/image/commit")
      [] (env.marshalCommit ⟨vmid⟩)).setHeader "Content-Type"
      "application/json").setHeader "Authorization" ("Bearer " ++ token)
      = commitRequest env config vmid token := by
    simp [Request.setHeader, commitRequest]
  unfold runCommit
  simp only [NewRequest, hurl, if_true, hreq]
  cases hdo : env.Do client (commitRequest env config vmid token) with
  | error err =>
    simp [World.say, World.issue, World.setFailedCommit, World.error, World.put, Value.ofError]
  | ok resp =>
    by_cases h200 : resp.StatusCode = 200 <;>
    simp [h200, World.say, World.issue, World.setFailedCommit, World.error, World.put,
      Value.ofError]

/-- The save branch once `http.NewRequest` accepts the URL: the request is
handed to the client and the result follows the three cases of the source. -/
theorem runSave_of_url (env : Env) (config : Config) (vmid token : String) (client : Client)
    (w : World)
    (hurl : env.urlParse (config.OrkaEndpoint ++ "/" ++ "resources/image/save") = true) :
    runSave env config vmid token client w =
      match env.Do client (saveRequest env config vmid token) with
      | Except.error err =>
        some (StepAction.ActionHalt,
          { step := { failedCommit := w.step.failedCommit, failedSave := true }
            state := StateBag.Put w.state "error" (Value.err err)
            trace := w.trace ++
              [Effect.Say ("Saving new image [" ++ config.ImageName ++ "]"),
               Effect.Say "Please wait as this can take a little while...",
               Effect.Do client (saveRequest env config vmid token),
               Effect.Error (env.OrkaAPIRequestErrorMessage ++ " [" ++ err.text ++ "]"),
               Effect.Put "error" (Value.err err)] })
      | Except.ok resp =>
        if resp.StatusCode ≠ 200 then
          some (StepAction.ActionHalt,
            { step := { failedCommit := w.step.failedCommit, failedSave := true }
              state := StateBag.Put w.state "error" Value.nil
              trace := w.trace ++
                [Effect.Say ("Saving new image [" ++ config.ImageName ++ "]"),
                 Effect.Say "Please wait as this can take a little while...",
                 Effect.Do client (saveRequest env config vmid token),
                 Effect.Error (env.OrkaAPIResponseErrorMessage ++ " [" ++ resp.Status ++ "]"),
                 Effect.Put "error" Value.nil] })
        else
          some (StepAction.ActionContinue,
            { step := w.step
              state := w.state
              trace := w.trace ++
                [Effect.Say ("Saving new image [" ++ config.ImageName ++ "]"),
                 Effect.Say "Please wait as this can take a little while...",
                 Effect.Do client (saveRequest env config vmid token),
                 Effect.Say ("Image saved [" ++ resp.Status ++ "] [" ++
                   (env.unmarshalSave resp.Body ImageSaveResponse.zero).1.Message ++ "]")] }) := by
  have hreq : ((Request.mk MethodPost (config.OrkaEndpoint ++ "/" ++ "resources/image/save")
      [] (env.marshalSave ⟨vmid, config.ImageName⟩)).setHeader "Content-Type"
      "application/json").setHeader "Authorization" ("Bearer " ++ token)
      = saveRequest env config vmid token := by
    simp [Request.setHeader, saveRequest]
  unfold runSave
  simp only [NewRequest, hurl, if_true, hreq]
  cases hdo : env.Do client (saveRequest env config vmid token) with
  | error err =>
    simp [World.say, World.issue, World.setFailedSave, World.error, World.put, Value.ofError]
  | ok resp =>
    by_cases h200 : resp.StatusCode = 200 <;>
    simp [h200, World.say, World.issue, World.setFailedSave, World.error, World.put,
      Value.ofError]

/-- The three outcomes of a run that is not skipped, for either branch: what
`Run` returns and the world it leaves, by the answer of the transport. -/
theorem run_outcome (env : Env) (w : World) (config : Config) (vmid token : String)
    (hc : StateBag.Get w.state "config" = Value.config config)
    (hu : StateBag.Get w.state "ui" = Value.ui)
    (hv : StateBag.Get w.state "vmid" = Value.str vmid)
    (ht : StateBag.Get w.state "token" = Value.str token)
    (hskip : config.NoCreateImage = false)
    (hurl : env.urlParse (stepRequest env config vmid token).URL = true) :
    Run env w =
      match env.Do stepClient (stepRequest env config vmid token) with
      | Except.error err =>
        some (StepAction.ActionHalt,
          { step :=
              if config.ImagePrecopy then
                { failedCommit := true, failedSave := w.step.failedSave }
              else { failedCommit := w.step.failedCommit, failedSave := true }
            state := StateBag.Put w.state "error" (Value.err err)
            trace := w.trace ++ progress config vmid ++
              [Effect.Do stepClient (stepRequest env config vmid token),
               Effect.Error (env.OrkaAPIRequestErrorMessage ++ " [" ++ err.text ++ "]"),
               Effect.Put "error" (Value.err err)] })
      | Except.ok resp =>
        if resp.StatusCode ≠ 200 then
          some (StepAction.ActionHalt,
            { step :=
                if config.ImagePrecopy then
                  { failedCommit := true, failedSave := w.step.failedSave }
                else { failedCommit := w.step.failedCommit, failedSave := true }
              state := StateBag.Put w.state "error" Value.nil
              trace := w.trace ++ progress config vmid ++
                [Effect.Do stepClient (stepRequest env config vmid token),
                 Effect.Error
                   (if config.ImagePrecopy then "Error committing image [" ++ resp.Status ++ "]"
                    else env.OrkaAPIResponseErrorMessage ++ " [" ++ resp.Status ++ "]"),
                 Effect.Put "error" Value.nil] })
        else
          some (StepAction.ActionContinue,
            { step := w.step
              state := w.state
              trace := w.trace ++ progress config vmid ++
                [Effect.Do stepClient (stepRequest env config vmid token),
                 Effect.Say
                   (if config.ImagePrecopy then
                      "Image comitted [" ++ resp.Status ++ "] [" ++
                        (env.unmarshalCommit resp.Body ImageCommitResponse.zero).1.Message ++ "]"
                    else
                      "Image saved [" ++ resp.Status ++ "] [" ++
                        (env.unmarshalSave resp.Body ImageSaveResponse.zero).1.Message ++ "]")] }) := by
  rw [run_of_state env w config vmid token hc hu hv ht]
  cases hpre : config.ImagePrecopy
  · have hurl2 : env.urlParse (config.OrkaEndpoint ++ "/" ++ "resources/image/save") = true := by
      simpa [stepRequest, hpre, saveRequest] using hurl
    simp only [hskip, Bool.false_eq_true, if_false, runSave_of_url env config vmid token _ _ hurl2,
      stepRequest, hpre]
    cases env.Do stepClient (saveRequest env config vmid token) with
    | error err => simp [World.say, progress, hpre]
    | ok resp => by_cases h200 : resp.StatusCode = 200 <;> simp [h200, World.say, progress, hpre]
  · have hurl2 : env.urlParse (config.OrkaEndpoint ++ "/" ++ "resources/image/commit") = true := by
      simpa [stepRequest, hpre, commitRequest] using hurl
    simp only [hskip, Bool.false_eq_true, if_false, if_true,
      runCommit_of_url env config vmid token _ _ hurl2, stepRequest, hpre]
    cases env.Do stepClient (commitRequest env config vmid token) with
    | error err => simp [World.say, progress, hpre]
    | ok resp => by_cases h200 : resp.StatusCode = 200 <;> simp [h200, World.say, progress, hpre]

/-- Appending two different texts to the same text gives different texts. -/
theorem append_ne_of_ne (e a b : String) (h : a ≠ b) : e ++ a ≠ e ++ b := by
  intro heq
  apply h
  have hd := congrArg String.data heq
  simp only [String.data_append, List.append_cancel_left_eq] at hd
  exact String.ext hd

/-- The state-bag entries of the sample world. -/
theorem sample_entries (c : Config) :
    StateBag.Get (sampleWorld c).state "config" = Value.config c ∧
    StateBag.Get (sampleWorld c).state "ui" = Value.ui ∧
    StateBag.Get (sampleWorld c).state "vmid" = Value.str "vm-1" ∧
    StateBag.Get (sampleWorld c).state "token" = Value.str "secret" := by
  simp [sampleWorld, sampleState, StateBag.Get, StateBag.GetOk, List.lookup]

/-- The error messages of a concatenated trace. -/
theorem errors_append (l₁ l₂ : List Effect) : errors (l₁ ++ l₂) = errors l₁ ++ errors l₂ := by
  induction l₁ with
  | nil => rfl
  | cons e t ih => cases e <;> simp [errors, ih]

/-- Appending the same text to two texts gives equal texts only for equal texts. -/
theorem append_right_cancel (a b e : String) : a ++ e = b ++ e ↔ a = b := by
  constructor
  · intro heq
    have hd := congrArg String.data heq
    simp only [String.data_append, List.append_cancel_right_eq] at hd
    exact String.ext hd
  · intro h
    rw [h]

/-- What a run that is not skipped leaves after a response with a status code
other than 200, in either branch: the value written under `error` is the nil
transport error. -/
theorem status_error_state (env : Env) (w : World) (config : Config) (vmid token : String)
    (resp : Response)
    (hc : StateBag.Get w.state "config" = Value.config config)
    (hu : StateBag.Get w.state "ui" = Value.ui)
    (hv : StateBag.Get w.state "vmid" = Value.str vmid)
    (ht : StateBag.Get w.state "token" = Value.str token)
    (hskip : config.NoCreateImage = false)
    (hurl : env.urlParse (stepRequest env config vmid token).URL = true)
    (hdo : env.Do stepClient (stepRequest env config vmid token) = Except.ok resp)
    (hstatus : resp.StatusCode ≠ 200) :
    ∃ w', Run env w = some (StepAction.ActionHalt, w') ∧
      StateBag.Get w'.state "error" = Value.nil ∧
      puts w'.trace = puts w.trace ++ [("error", Value.nil)] ∧
      errors w'.trace = errors w.trace ++
        [if config.ImagePrecopy then "Error committing image [" ++ resp.Status ++ "]"
         else env.OrkaAPIResponseErrorMessage ++ " [" ++ resp.Status ++ "]"] := by
  have hputs : puts (progress config vmid) = [] := rfl
  have herrors : errors (progress config vmid) = [] := rfl
  rw [run_outcome env w config vmid token hc hu hv ht hskip hurl, hdo]
  simp only [hstatus, ne_eq, not_false_eq_true, if_true]
  exact ⟨_, rfl, get_put _ _ _, by simp [puts_append, hputs, puts],
    by simp [errors_append, herrors, errors]⟩

/-- A run that is not skipped panics when `http.NewRequest` rejects the URL: the
nil request is dereferenced by `Header.Set` before anything is sent. -/
theorem run_none_of_bad_url (env : Env) (w : World) (config : Config) (vmid token : String)
    (hc : StateBag.Get w.state "config" = Value.config config)
    (hu : StateBag.Get w.state "ui" = Value.ui)
    (hv : StateBag.Get w.state "vmid" = Value.str vmid)
    (ht : StateBag.Get w.state "token" = Value.str token)
    (hskip : config.NoCreateImage = false)
    (hurl : env.urlParse (stepRequest env config vmid token).URL = false) :
    Run env w = none := by
  rw [run_of_state env w config vmid token hc hu hv ht]
  cases hpre : config.ImagePrecopy
  · have hurl2 : env.urlParse (config.OrkaEndpoint ++ "/" ++ "resources/image/save") = false := by
      simpa [stepRequest, hpre, saveRequest] using hurl
    simp [hskip, runSave, NewRequest, hurl2]
  · have hurl2 : env.urlParse (config.OrkaEndpoint ++ "/" ++ "resources/image/commit") = false := by
      simpa [stepRequest, hpre, commitRequest] using hurl
    simp [hskip, runCommit, NewRequest, hurl2]

/-- The flags after a run on a state bag that holds the four entries, when
`http.NewRequest` accepts the URL of a run that is not skipped. -/
theorem run_flags_of_url (env : Env) (w : World) (config : Config) (vmid token : String)
    (hc : StateBag.Get w.state "config" = Value.config config)
    (hu : StateBag.Get w.state "ui" = Value.ui)
    (hv : StateBag.Get w.state "vmid" = Value.str vmid)
    (ht : StateBag.Get w.state "token" = Value.str token)
    (hurl : config.NoCreateImage = false →
      env.urlParse (stepRequest env config vmid token).URL = true) :
    ∃ a w', Run env w = some (a, w') ∧
      (config.ImagePrecopy = true → w'.step.failedSave = w.step.failedSave) ∧
      (config.ImagePrecopy = false → w'.step.failedCommit = w.step.failedCommit) ∧
      (w.step.failedCommit = false → w.step.failedSave = false →
        ¬ (w'.step.failedCommit = true ∧ w'.step.failedSave = true) ∧
        ((w'.step.failedCommit = true ∨ w'.step.failedSave = true) ↔
          a = StepAction.ActionHalt)) := by
  cases hskip : config.NoCreateImage
  · rw [run_outcome env w config vmid token hc hu hv ht hskip (hurl hskip)]
    cases env.Do stepClient (stepRequest env config vmid token) with
    | error err =>
      refine ⟨_, _, rfl, ?_, ?_, ?_⟩
      · intro hpre; simp [hpre]
      · intro hpre; simp [hpre]
      · intro h1 h2
        cases hpre : config.ImagePrecopy <;> simp [hpre, h1, h2]
    | ok resp =>
      by_cases h200 : resp.StatusCode = 200
      · simp only [h200, ne_eq, not_true, if_false]
        refine ⟨_, _, rfl, fun _ => rfl, fun _ => rfl, ?_⟩
        intro h1 h2
        simp [h1, h2]
      · simp only [h200, ne_eq, not_false_eq_true, if_true]
        refine ⟨_, _, rfl, ?_, ?_, ?_⟩
        · intro hpre; simp [hpre]
        · intro hpre; simp [hpre]
        · intro h1 h2
          cases hpre : config.ImagePrecopy <;> simp [hpre, h1, h2]
  · rw [run_of_state env w config vmid token hc hu hv ht]
    simp only [hskip, if_true]
    refine ⟨_, _, rfl, fun _ => rfl, fun _ => rfl, ?_⟩
    intro h1 h2
    simp [World.say, h1, h2]


/-- The request a run that is not skipped hands to the client, when
`http.NewRequest` accepts the URL. -/
theorem run_issues_of_url (env : Env) (w : World) (config : Config) (vmid token : String)
    (hc : StateBag.Get w.state "config" = Value.config config)
    (hu : StateBag.Get w.state "ui" = Value.ui)
    (hv : StateBag.Get w.state "vmid" = Value.str vmid)
    (ht : StateBag.Get w.state "token" = Value.str token)
    (hskip : config.NoCreateImage = false)
    (hurl : env.urlParse (stepRequest env config vmid token).URL = true) :
    ∃ a w' req, Run env w = some (a, w') ∧
      issued w'.trace = issued w.trace ++ [req] ∧
      req.Method = "POST" ∧
      req.URL = config.OrkaEndpoint ++
        (if config.ImagePrecopy then "/resources/image/commit" else "/resources/image/save") ∧
      req.URL ≠ config.OrkaEndpoint ++
        (if config.ImagePrecopy then "/resources/image/save" else "/resources/image/commit") ∧
      req.Header = [("Content-Type", "application/json"), ("Authorization", "Bearer " ++ token)] ∧
      sent env w'.trace = sent env w.trace ++ env.wire stepClient req := by
  have hissued : issued (progress config vmid) = [] := rfl
  have hsent : sent env (progress config vmid) = [] := rfl
  have hreq : (stepRequest env config vmid token).Method = "POST" ∧
      (stepRequest env config vmid token).URL = config.OrkaEndpoint ++
        (if config.ImagePrecopy then "/resources/image/commit" else "/resources/image/save") ∧
      (stepRequest env config vmid token).Header =
        [("Content-Type", "application/json"), ("Authorization", "Bearer " ++ token)] := by
    cases hpre : config.ImagePrecopy <;>
      simp [stepRequest, hpre, commitRequest, saveRequest, MethodPost, String.append_assoc]
  have hne : (stepRequest env config vmid token).URL ≠ config.OrkaEndpoint ++
      (if config.ImagePrecopy then "/resources/image/save" else "/resources/image/commit") := by
    rw [hreq.2.1]
    apply append_ne_of_ne
    cases config.ImagePrecopy <;> decide
  rw [run_outcome env w config vmid token hc hu hv ht hskip hurl]
  cases env.Do stepClient (stepRequest env config vmid token) with
  | error err =>
    exact ⟨_, _, stepRequest env config vmid token, rfl,
      by simp [issued_append, hissued, issued], hreq.1, hreq.2.1, hne, hreq.2.2,
        by simp [sent_append, hsent, sent]⟩
  | ok resp =>
    by_cases h200 : resp.StatusCode = 200
    · simp only [h200, ne_eq, not_true, if_false]
      exact ⟨_, _, stepRequest env config vmid token, rfl,
        by simp [issued_append, hissued, issued], hreq.1, hreq.2.1, hne, hreq.2.2,
        by simp [sent_append, hsent, sent]⟩
    · simp only [h200, ne_eq, not_false_eq_true, if_true]
      exact ⟨_, _, stepRequest env config vmid token, rfl,
        by simp [issued_append, hissued, issued], hreq.1, hreq.2.1, hne, hreq.2.2,
        by simp [sent_append, hsent, sent]⟩

/-! ## Skipped runs -/

/-- C1: when the configuration has `NoCreateImage` set, `Run` returns
`ActionContinue` and leaves the world as it was (both flags, the whole state
bag) except for one `Say` message appended to the trace: no request, no write. -/
theorem run_skip (env : Env) (w : World) (config : Config) (vmid token : String)
    (hc : StateBag.Get w.state "config" = Value.config config)
    (hu : StateBag.Get w.state "ui" = Value.ui)
    (hv : StateBag.Get w.state "vmid" = Value.str vmid)
    (ht : StateBag.Get w.state "token" = Value.str token)
    (hskip : config.NoCreateImage = true) :
    Run env w = some (StepAction.ActionContinue,
      { step := w.step, state := w.state,
        trace := w.trace ++
          [Effect.Say "Skipping image creation because of 'no_create_image' being set"] }) := by
  simp [Run, hc, hu, hv, ht, hskip, Value.asConfig, Value.asUi, Value.asString, World.say]

/-- Witness of C1 (`run_skip`): the sample world with the skip flag set (and the
precopy flag set as well). -/
theorem run_skip_witness :
    Run (sampleEnv (Except.error ⟨"connection refused"⟩)) (sampleWorld (sampleConfig true true)) =
      some (StepAction.ActionContinue,
        { step := { failedCommit := false, failedSave := false }
          state := sampleState (sampleConfig true true)
          trace :=
            [Effect.Say "Skipping image creation because of 'no_create_image' being set"] }) :=
  run_skip _ (sampleWorld (sampleConfig true true)) (sampleConfig true true) "vm-1" "secret"
    (sample_entries _).1 (sample_entries _).2.1 (sample_entries _).2.2.1 (sample_entries _).2.2.2 rfl

/-! ## Runs that are not skipped -/

/-- C2 amended: when `NoCreateImage` is unset, every run that returns has called
`client.Do` exactly once, with a POST built for the URL text that is the
endpoint followed by `/resources/image/commit` when `ImagePrecopy` is set and
by `/resources/image/save` when it is not (a text different from the one of the
other branch), whatever the call returns; the HTTP requests sent in the run are
those the client sends during that one call.  And `Run` does return, whenever
`http.NewRequest` accepts that URL. -/
theorem run_issues_one_post (env : Env) (w : World) (config : Config) (vmid token : String)
    (hc : StateBag.Get w.state "config" = Value.config config)
    (hu : StateBag.Get w.state "ui" = Value.ui)
    (hv : StateBag.Get w.state "vmid" = Value.str vmid)
    (ht : StateBag.Get w.state "token" = Value.str token)
    (hskip : config.NoCreateImage = false) :
    (∀ a w', Run env w = some (a, w') →
      ∃ req, issued w'.trace = issued w.trace ++ [req] ∧
        req.Method = "POST" ∧
        req.URL = config.OrkaEndpoint ++
          (if config.ImagePrecopy then "/resources/image/commit" else "/resources/image/save") ∧
        req.URL ≠ config.OrkaEndpoint ++
          (if config.ImagePrecopy then "/resources/image/save" else "/resources/image/commit") ∧
        req.Header =
          [("Content-Type", "application/json"), ("Authorization", "Bearer " ++ token)] ∧
        sent env w'.trace = sent env w.trace ++ env.wire stepClient req) ∧
    (env.urlParse (config.OrkaEndpoint ++
        (if config.ImagePrecopy then "/resources/image/commit" else "/resources/image/save"))
        = true →
      ∃ a w', Run env w = some (a, w')) := by
  have hURL : (stepRequest env config vmid token).URL = config.OrkaEndpoint ++
      (if config.ImagePrecopy then "/resources/image/commit" else "/resources/image/save") := by
    cases hpre : config.ImagePrecopy <;>
      simp [stepRequest, hpre, commitRequest, saveRequest, String.append_assoc]
  constructor
  · intro a w' hrun
    cases hurl : env.urlParse (stepRequest env config vmid token).URL
    · rw [run_none_of_bad_url env w config vmid token hc hu hv ht hskip hurl] at hrun
      cases hrun
    · obtain ⟨a2, w2, req, hrun2, h⟩ :=
        run_issues_of_url env w config vmid token hc hu hv ht hskip hurl
      rw [hrun2] at hrun
      cases hrun
      exact ⟨req, h⟩
  · intro hurl
    rw [← hURL] at hurl
    obtain ⟨a, w', _, hrun, _⟩ := run_issues_of_url env w config vmid token hc hu hv ht hskip hurl
    exact ⟨a, w', hrun⟩

/-- C2 as stated fails.  In the save branch, with a server that redirects the
POST from the save endpoint to the commit endpoint, the run returns and two
HTTP requests were sent, the second a POST to the commit endpoint.  And with
an endpoint `http.NewRequest` rejects, `Run` panics on the nil request: no
request at all. -/
theorem run_not_one_request :
    (∃ w', Run sampleRedirect (sampleWorld (sampleConfig false false)) =
        some (StepAction.ActionContinue, w') ∧
      (sent sampleRedirect w'.trace).map (fun r => (r.Method, r.URL)) =
        [("POST", "http://10.221.188.100/resources/image/save"),
         ("POST", "http://10.221.188.100/resources/image/commit")]) ∧
    Run sampleStrict (sampleWorld sampleBadConfig) = none := by
  constructor
  · rw [run_outcome sampleRedirect (sampleWorld (sampleConfig false false))
      (sampleConfig false false) "vm-1" "secret" (sample_entries _).1 (sample_entries _).2.1
      (sample_entries _).2.2.1 (sample_entries _).2.2.2 rfl rfl]
    exact ⟨_, rfl, by decide⟩
  · exact run_none_of_bad_url sampleStrict (sampleWorld sampleBadConfig) sampleBadConfig
      "vm-1" "secret" (sample_entries _).1 (sample_entries _).2.1
      (sample_entries _).2.2.1 (sample_entries _).2.2.2 rfl (by decide)

/-- Witness of C2 amended (`run_issues_one_post`): the sample world in the
precopy branch, the client answering 200: the run returns and its one call of
the client is a POST built for the commit endpoint. -/
theorem run_issues_one_post_witness :
    ∃ a w', Run (sampleEnv (Except.ok sampleOk)) (sampleWorld (sampleConfig false true)) =
        some (a, w') ∧
      ∃ req, issued w'.trace = issued (sampleWorld (sampleConfig false true)).trace ++ [req] ∧
        req.Method = "POST" ∧
        req.URL = (sampleConfig false true).OrkaEndpoint ++
          (if (sampleConfig false true).ImagePrecopy then "/resources/image/commit"
           else "/resources/image/save") ∧
        req.URL ≠ (sampleConfig false true).OrkaEndpoint ++
          (if (sampleConfig false true).ImagePrecopy then "/resources/image/save"
           else "/resources/image/commit") ∧
        req.Header =
          [("Content-Type", "application/json"), ("Authorization", "Bearer " ++ "secret")] ∧
        sent (sampleEnv (Except.ok sampleOk)) w'.trace =
          sent (sampleEnv (Except.ok sampleOk)) (sampleWorld (sampleConfig false true)).trace ++
            (sampleEnv (Except.ok sampleOk)).wire stepClient req :=
  have h := run_issues_one_post (sampleEnv (Except.ok sampleOk))
    (sampleWorld (sampleConfig false true)) (sampleConfig false true)
    "vm-1" "secret" (sample_entries _).1 (sample_entries _).2.1 (sample_entries _).2.2.1
    (sample_entries _).2.2.2 rfl
  match h.2 rfl with
  | ⟨a, w', hrun⟩ => ⟨a, w', hrun, h.1 a w' hrun⟩

/-- C3: when the round trip of a run that is not skipped fails with the
transport error `err`, `Run` returns `ActionHalt`, sets the flag of the branch
taken (`failedCommit` with precopy, `failedSave` without), and stores `err`
itself, a non-nil value, in the state bag under `error`; the one write of the
run. -/
theorem run_transport_error (env : Env) (w : World) (config : Config) (vmid token : String)
    (err : GoError)
    (hc : StateBag.Get w.state "config" = Value.config config)
    (hu : StateBag.Get w.state "ui" = Value.ui)
    (hv : StateBag.Get w.state "vmid" = Value.str vmid)
    (ht : StateBag.Get w.state "token" = Value.str token)
    (hskip : config.NoCreateImage = false)
    (hurl : env.urlParse (stepRequest env config vmid token).URL = true)
    (hdo : env.Do stepClient (stepRequest env config vmid token) = Except.error err) :
    ∃ w', Run env w = some (StepAction.ActionHalt, w') ∧
      (config.ImagePrecopy = true → w'.step.failedCommit = true) ∧
      (config.ImagePrecopy = false → w'.step.failedSave = true) ∧
      StateBag.Get w'.state "error" = Value.err err ∧
      StateBag.Get w'.state "error" ≠ Value.nil ∧
      puts w'.trace = puts w.trace ++ [("error", Value.err err)] := by
  have hputs : puts (progress config vmid) = [] := rfl
  rw [run_outcome env w config vmid token hc hu hv ht hskip hurl, hdo]
  refine ⟨_, rfl, ?_, ?_, ?_, ?_, ?_⟩
  · intro hpre; simp [hpre]
  · intro hpre; simp [hpre]
  · exact get_put _ _ _
  · simp [get_put]
  · simp [puts_append, hputs, puts]

/-- Witness of C3 (`run_transport_error`): the sample world in the save branch,
the transport refusing the connection. -/
theorem run_transport_error_witness :
    ∃ w', Run (sampleEnv (Except.error sampleRefused)) (sampleWorld (sampleConfig false false)) =
        some (StepAction.ActionHalt, w') ∧
      ((sampleConfig false false).ImagePrecopy = true → w'.step.failedCommit = true) ∧
      ((sampleConfig false false).ImagePrecopy = false → w'.step.failedSave = true) ∧
      StateBag.Get w'.state "error" = Value.err sampleRefused ∧
      StateBag.Get w'.state "error" ≠ Value.nil ∧
      puts w'.trace = puts (sampleWorld (sampleConfig false false)).trace ++
        [("error", Value.err sampleRefused)] :=
  run_transport_error _ (sampleWorld (sampleConfig false false)) (sampleConfig false false)
    "vm-1" "secret" sampleRefused (sample_entries _).1 (sample_entries _).2.1
    (sample_entries _).2.2.1 (sample_entries _).2.2.2 rfl rfl rfl

/-- C4: when the round trip of a run that is not skipped succeeds with a status
code other than 200, whatever the body, `Run` returns `ActionHalt` and sets the
flag of the branch taken (`failedCommit` with precopy, `failedSave` without). -/
theorem run_status_error (env : Env) (w : World) (config : Config) (vmid token : String)
    (resp : Response)
    (hc : StateBag.Get w.state "config" = Value.config config)
    (hu : StateBag.Get w.state "ui" = Value.ui)
    (hv : StateBag.Get w.state "vmid" = Value.str vmid)
    (ht : StateBag.Get w.state "token" = Value.str token)
    (hskip : config.NoCreateImage = false)
    (hurl : env.urlParse (stepRequest env config vmid token).URL = true)
    (hdo : env.Do stepClient (stepRequest env config vmid token) = Except.ok resp)
    (hstatus : resp.StatusCode ≠ 200) :
    ∃ w', Run env w = some (StepAction.ActionHalt, w') ∧
      (config.ImagePrecopy = true → w'.step.failedCommit = true) ∧
      (config.ImagePrecopy = false → w'.step.failedSave = true) := by
  rw [run_outcome env w config vmid token hc hu hv ht hskip hurl, hdo]
  simp only [hstatus, ne_eq, not_false_eq_true, if_true]
  refine ⟨_, rfl, ?_, ?_⟩
  · intro hpre; simp [hpre]
  · intro hpre; simp [hpre]

/-- Witness of C4 (`run_status_error`): the sample world in the precopy branch,
the server answering 500. -/
theorem run_status_error_witness :
    ∃ w', Run (sampleEnv (Except.ok sampleFailure)) (sampleWorld (sampleConfig false true)) =
        some (StepAction.ActionHalt, w') ∧
      ((sampleConfig false true).ImagePrecopy = true → w'.step.failedCommit = true) ∧
      ((sampleConfig false true).ImagePrecopy = false → w'.step.failedSave = true) :=
  run_status_error _ (sampleWorld (sampleConfig false true)) (sampleConfig false true)
    "vm-1" "secret" sampleFailure (sample_entries _).1 (sample_entries _).2.1
    (sample_entries _).2.2.1 (sample_entries _).2.2.2 rfl rfl rfl (by decide)

/-- C7: when the response of a run that is not skipped has status 200, in either
branch, for every body and every behaviour of the decoder, `Run` returns
`ActionContinue` and leaves both flags and the whole state bag as they were,
with no write in the trace. -/
theorem run_status_ok (env : Env) (w : World) (config : Config) (vmid token : String)
    (resp : Response)
    (hc : StateBag.Get w.state "config" = Value.config config)
    (hu : StateBag.Get w.state "ui" = Value.ui)
    (hv : StateBag.Get w.state "vmid" = Value.str vmid)
    (ht : StateBag.Get w.state "token" = Value.str token)
    (hskip : config.NoCreateImage = false)
    (hurl : env.urlParse (stepRequest env config vmid token).URL = true)
    (hdo : env.Do stepClient (stepRequest env config vmid token) = Except.ok resp)
    (hstatus : resp.StatusCode = 200) :
    ∃ w', Run env w = some (StepAction.ActionContinue, w') ∧
      w'.step = w.step ∧ w'.state = w.state ∧ puts w'.trace = puts w.trace := by
  have hputs : puts (progress config vmid) = [] := rfl
  rw [run_outcome env w config vmid token hc hu hv ht hskip hurl, hdo]
  simp only [hstatus, ne_eq, not_true, if_false]
  exact ⟨_, rfl, rfl, rfl, by simp [puts_append, hputs, puts]⟩

/-- Witness of C7 (`run_status_ok`): the sample world in the save branch, the
server answering 200 with a body the decoder rejects. -/
theorem run_status_ok_witness :
    ∃ w', Run (sampleEnv (Except.ok sampleGarbled)) (sampleWorld (sampleConfig false false)) =
        some (StepAction.ActionContinue, w') ∧
      w'.step = (sampleWorld (sampleConfig false false)).step ∧
      w'.state = (sampleWorld (sampleConfig false false)).state ∧
      puts w'.trace = puts (sampleWorld (sampleConfig false false)).trace :=
  run_status_ok _ (sampleWorld (sampleConfig false false)) (sampleConfig false false)
    "vm-1" "secret" sampleGarbled (sample_entries _).1 (sample_entries _).2.1
    (sample_entries _).2.2.1 (sample_entries _).2.2.2 rfl rfl rfl rfl

/-- C10: a run changes at most one flag: whenever `Run` returns, with
`ImagePrecopy` set it has left `failedSave` as it was and with `ImagePrecopy`
unset it has left `failedCommit` as it was; on a fresh instance (both flags
false) the flags are not both true afterwards, and one of them is true exactly
when `Run` returned `ActionHalt`.  And `Run` does return, whenever
`http.NewRequest` accepts the URL of a run that is not skipped. -/
theorem run_flags (env : Env) (w : World) (config : Config) (vmid token : String)
    (hc : StateBag.Get w.state "config" = Value.config config)
    (hu : StateBag.Get w.state "ui" = Value.ui)
    (hv : StateBag.Get w.state "vmid" = Value.str vmid)
    (ht : StateBag.Get w.state "token" = Value.str token) :
    (∀ a w', Run env w = some (a, w') →
      (config.ImagePrecopy = true → w'.step.failedSave = w.step.failedSave) ∧
      (config.ImagePrecopy = false → w'.step.failedCommit = w.step.failedCommit) ∧
      (w.step.failedCommit = false → w.step.failedSave = false →
        ¬ (w'.step.failedCommit = true ∧ w'.step.failedSave = true) ∧
        ((w'.step.failedCommit = true ∨ w'.step.failedSave = true) ↔
          a = StepAction.ActionHalt))) ∧
    ((config.NoCreateImage = false →
        env.urlParse (stepRequest env config vmid token).URL = true) →
      ∃ a w', Run env w = some (a, w')) := by
  constructor
  · intro a w' hrun
    by_cases hurl : config.NoCreateImage = false →
        env.urlParse (stepRequest env config vmid token).URL = true
    · obtain ⟨a2, w2, hrun2, h⟩ := run_flags_of_url env w config vmid token hc hu hv ht hurl
      rw [hrun2] at hrun
      cases hrun
      exact h
    · have hskip : config.NoCreateImage = false := by
        by_contra hs
        exact hurl (fun h => absurd h hs)
      have hbad : env.urlParse (stepRequest env config vmid token).URL = false := by
        cases hp : env.urlParse (stepRequest env config vmid token).URL
        · rfl
        · exact absurd (fun _ => hp) hurl
      rw [run_none_of_bad_url env w config vmid token hc hu hv ht hskip hbad] at hrun
      cases hrun
  · intro hurl
    obtain ⟨a, w', hrun, _⟩ := run_flags_of_url env w config vmid token hc hu hv ht hurl
    exact ⟨a, w', hrun⟩

/-- Witness of C10 (`run_flags`): a fresh step instance in the save branch, the
transport refusing the connection: `Run` returns `ActionHalt` with `failedSave`
set and `failedCommit` unset. -/
theorem run_flags_witness :
    Run (sampleEnv (Except.error sampleRefused)) (sampleWorld (sampleConfig false false)) =
      some (StepAction.ActionHalt,
        { step := { failedCommit := false, failedSave := true }
          state := StateBag.Put (sampleState (sampleConfig false false)) "error"
            (Value.err sampleRefused)
          trace := progress (sampleConfig false false) "vm-1" ++
            [Effect.Do stepClient
              (stepRequest (sampleEnv (Except.error sampleRefused)) (sampleConfig false false)
                "vm-1" "secret"),
             Effect.Error "API request failed [connection refused]",
             Effect.Put "error" (Value.err sampleRefused)] }) ∧
    ((false = true ∨ true = true) ↔ StepAction.ActionHalt = StepAction.ActionHalt) :=
  have hrun : Run (sampleEnv (Except.error sampleRefused))
      (sampleWorld (sampleConfig false false)) =
      some (StepAction.ActionHalt,
        { step := { failedCommit := false, failedSave := true }
          state := StateBag.Put (sampleState (sampleConfig false false)) "error"
            (Value.err sampleRefused)
          trace := progress (sampleConfig false false) "vm-1" ++
            [Effect.Do stepClient
              (stepRequest (sampleEnv (Except.error sampleRefused)) (sampleConfig false false)
                "vm-1" "secret"),
             Effect.Error "API request failed [connection refused]",
             Effect.Put "error" (Value.err sampleRefused)] }) := by
    rw [run_outcome _ (sampleWorld (sampleConfig false false)) (sampleConfig false false)
      "vm-1" "secret" (sample_entries _).1 (sample_entries _).2.1 (sample_entries _).2.2.1
      (sample_entries _).2.2.2 rfl rfl]
    rfl
  ⟨hrun,
    (((run_flags _ (sampleWorld (sampleConfig false false)) (sampleConfig false false)
      "vm-1" "secret" (sample_entries _).1 (sample_entries _).2.1 (sample_entries _).2.2.1
      (sample_entries _).2.2.2).1 _ _ hrun).2.2 rfl rfl).2⟩

/-! ## The value stored after a bad status -/

/-- C5 fails on the code: in the save branch, after the sample response with
status 500, `Run` halts and the value it stores in the state bag under `error`
is the nil interface value, the only write of the run. -/
theorem save_status_error_stores_nil :
    ∃ w', Run (sampleEnv (Except.ok sampleFailure)) (sampleWorld (sampleConfig false false)) =
        some (StepAction.ActionHalt, w') ∧
      StateBag.Get w'.state "error" = Value.nil ∧
      puts w'.trace = [("error", Value.nil)] := by
  obtain ⟨w', hrun, hget, hputs, _⟩ :=
    status_error_state (sampleEnv (Except.ok sampleFailure)) (sampleWorld (sampleConfig false false))
      (sampleConfig false false) "vm-1" "secret" sampleFailure (sample_entries _).1
      (sample_entries _).2.1 (sample_entries _).2.2.1 (sample_entries _).2.2.2 rfl rfl rfl
      (by decide)
  exact ⟨w', hrun, hget, by simpa [sampleWorld, puts] using hputs⟩

/-! ## The error message after a bad status -/

/-- C6 as stated fails: in the precopy branch, after the sample response with
status 500 and with the label `API response error`, the one message `Run` sends
through `ui.Error` is `Error committing image [500 Internal Server Error]`, not
the label combined with the status line. -/
theorem commit_status_message_not_label :
    ∃ w', Run (sampleEnv (Except.ok sampleFailure)) (sampleWorld (sampleConfig false true)) =
        some (StepAction.ActionHalt, w') ∧
      errors w'.trace = ["Error committing image [500 Internal Server Error]"] ∧
      errors w'.trace ≠
        [(sampleEnv (Except.ok sampleFailure)).OrkaAPIResponseErrorMessage ++ " [" ++
          sampleFailure.Status ++ "]"] := by
  obtain ⟨w', hrun, _, _, herr⟩ :=
    status_error_state (sampleEnv (Except.ok sampleFailure)) (sampleWorld (sampleConfig false true))
      (sampleConfig false true) "vm-1" "secret" sampleFailure (sample_entries _).1
      (sample_entries _).2.1 (sample_entries _).2.2.1 (sample_entries _).2.2.2 rfl rfl rfl
      (by decide)
  have h : errors w'.trace = ["Error committing image [500 Internal Server Error]"] := by
    rw [herr]
    decide
  refine ⟨w', hrun, h, ?_⟩
  rw [h]
  decide

/-- C6 amended: after a response with a status code other than 200, the one
message `Run` sends through `ui.Error` is, in the save branch, the label
`OrkaAPIResponseErrorMessage` combined with the status line,
`<label> [<status>]`, and in the precopy branch
`Error committing image [<status>]`, which is of the first form only when the
label is the text `Error committing image`. -/
theorem run_status_error_message (env : Env) (w : World) (config : Config)
    (vmid token : String) (resp : Response)
    (hc : StateBag.Get w.state "config" = Value.config config)
    (hu : StateBag.Get w.state "ui" = Value.ui)
    (hv : StateBag.Get w.state "vmid" = Value.str vmid)
    (ht : StateBag.Get w.state "token" = Value.str token)
    (hskip : config.NoCreateImage = false)
    (hurl : env.urlParse (stepRequest env config vmid token).URL = true)
    (hdo : env.Do stepClient (stepRequest env config vmid token) = Except.ok resp)
    (hstatus : resp.StatusCode ≠ 200) :
    ∃ w', Run env w = some (StepAction.ActionHalt, w') ∧
      (config.ImagePrecopy = false →
        errors w'.trace = errors w.trace ++
          [env.OrkaAPIResponseErrorMessage ++ " [" ++ resp.Status ++ "]"]) ∧
      (config.ImagePrecopy = true →
        errors w'.trace = errors w.trace ++ ["Error committing image [" ++ resp.Status ++ "]"]) ∧
      ("Error committing image [" ++ resp.Status ++ "]" =
          env.OrkaAPIResponseErrorMessage ++ " [" ++ resp.Status ++ "]" ↔
        env.OrkaAPIResponseErrorMessage = "Error committing image") := by
  obtain ⟨w', hrun, _, _, herr⟩ :=
    status_error_state env w config vmid token resp hc hu hv ht hskip hurl hdo hstatus
  refine ⟨w', hrun, ?_, ?_, ?_⟩
  · intro hpre
    simpa [hpre] using herr
  · intro hpre
    simpa [hpre] using herr
  · have hsplit : "Error committing image [" = "Error committing image" ++ " [" := by decide
    constructor
    · intro h
      rw [hsplit] at h
      have h1 := (append_right_cancel _ _ "]").1 h
      have h2 := (append_right_cancel _ _ resp.Status).1 h1
      exact ((append_right_cancel _ _ " [").1 h2).symm
    · intro h
      rw [h, hsplit]

/-- Witness of C6 amended (`run_status_error_message`): the sample world in the
save branch, the server answering 500. -/
theorem run_status_error_message_witness :
    ∃ w', Run (sampleEnv (Except.ok sampleFailure)) (sampleWorld (sampleConfig false false)) =
        some (StepAction.ActionHalt, w') ∧
      ((sampleConfig false false).ImagePrecopy = false →
        errors w'.trace = errors (sampleWorld (sampleConfig false false)).trace ++
          [(sampleEnv (Except.ok sampleFailure)).OrkaAPIResponseErrorMessage ++ " [" ++
            sampleFailure.Status ++ "]"]) ∧
      ((sampleConfig false false).ImagePrecopy = true →
        errors w'.trace = errors (sampleWorld (sampleConfig false false)).trace ++
          ["Error committing image [" ++ sampleFailure.Status ++ "]"]) ∧
      ("Error committing image [" ++ sampleFailure.Status ++ "]" =
          (sampleEnv (Except.ok sampleFailure)).OrkaAPIResponseErrorMessage ++ " [" ++
            sampleFailure.Status ++ "]" ↔
        (sampleEnv (Except.ok sampleFailure)).OrkaAPIResponseErrorMessage =
          "Error committing image") :=
  run_status_error_message _ (sampleWorld (sampleConfig false false)) (sampleConfig false false)
    "vm-1" "secret" sampleFailure (sample_entries _).1 (sample_entries _).2.1
    (sample_entries _).2.2.1 (sample_entries _).2.2.2 rfl rfl rfl (by decide)

/-! ## Cleanup -/

/-- C9: on a state bag that holds a ui and a vmid, `Cleanup` returns, leaves
both flags and the whole state bag as they were, and appends to the trace
exactly one `Say` message (the manual-check warning) when `failedCommit` or
`failedSave` is set and nothing when neither is; this for every vmid, empty or
not, and whatever markers the state bag holds. -/
theorem cleanup_effect (w : World) (vmid : String)
    (hu : StateBag.Get w.state "ui" = Value.ui)
    (hv : StateBag.Get w.state "vmid" = Value.str vmid) :
    ∃ w', Cleanup w = some w' ∧ w'.step = w.step ∧ w'.state = w.state ∧
      w'.trace = w.trace ++
        (if w.step.failedCommit = true ∨ w.step.failedSave = true then
          [Effect.Say
            "Commit or save failed - please check Orka to see if any artifacts were left behind"]
         else []) := by
  by_cases hflag : w.step.failedCommit = true ∨ w.step.failedSave = true
  · refine ⟨w.say
      "Commit or save failed - please check Orka to see if any artifacts were left behind",
      ?_, rfl, rfl, ?_⟩
    · simp [Cleanup, hu, hv, Value.asUi, Value.asString, hflag]
    · simp [hflag, World.say]
  · refine ⟨w, ?_, rfl, rfl, ?_⟩
    · simp [Cleanup, hu, hv, Value.asUi, Value.asString, hflag]
    · simp [hflag]

/-- Witness of C9 (`cleanup_effect`): a step whose commit failed, in a cancelled
pipeline. -/
theorem cleanup_effect_witness :
    ∃ w', Cleanup (World.mk (stepCreateImage.mk true false) sampleCancelled []) = some w' ∧
      w'.step = (World.mk (stepCreateImage.mk true false) sampleCancelled []).step ∧
      w'.state = (World.mk (stepCreateImage.mk true false) sampleCancelled []).state ∧
      w'.trace = (World.mk (stepCreateImage.mk true false) sampleCancelled []).trace ++
        (if (World.mk (stepCreateImage.mk true false) sampleCancelled []).step.failedCommit = true ∨
            (World.mk (stepCreateImage.mk true false) sampleCancelled []).step.failedSave = true then
          [Effect.Say
            "Commit or save failed - please check Orka to see if any artifacts were left behind"]
         else []) :=
  cleanup_effect (World.mk (stepCreateImage.mk true false) sampleCancelled []) "vm-1"
    (by simp [sampleCancelled, StateBag.Get, StateBag.GetOk, List.lookup])
    (by simp [sampleCancelled, StateBag.Get, StateBag.GetOk, List.lookup])

end Orka
